import Mathlib

/-!
Formal model of the retrieval-matching and answer-routing engine of the
Romeo and Juliet RAG system.

The embedding follows, line by line:
- `quantitative_eval/core/groundtruth_based_retrieval.py`
  (class `GroundtruthBasedRetriever`: `find_matching_topic`, `search`);
- `quantitative_eval/core/intelligent_rag_system.py`
  (class `IntelligentRAGSystem`: `answer_question`, `_answer_known`,
  `_answer_inferred`, `_answer_out_of_kb`, `_template_integrate`,
  `_generate_with_llm`);
- `quantitative_eval/app.py` (route handler `ask_text`).

Modelling conventions:
- pandas DataFrames are lists of row structures holding the columns the
  engine reads;
- the sentence-transformer model is an abstract `encode : String → List Int`
  parameter: integer vectors stand in for float vectors (every claim below
  is independent of the numeric type — only the ordering of similarity
  values matters — and Int keeps all similarity arithmetic computable by
  the kernel); the constant confidence score `1.0` that `search` attaches
  to every passage is modelled as `(1 : ℚ)`;
- `np.dot(matrix, vector)` is the row-wise inner product;
- `np.argsort` sorts the index list of the similarity array in ascending
  order; on the short arrays in play numpy resolves equal values by
  original position, so it is modelled as sorting indices by the pair
  (value, index) — realised with `List.insertionSort` over that total
  order (any correct sort of a total order yields the same list);
- Python `str.strip()` is `strip` below (drop whitespace at both ends);
  Python `"sep".join(xs)` is `joinSep`; the slice `s[:n]` is
  `String.mk (s.data.take n)` (both count code points);
- the Ollama chat backend is a function `chat : String → Option String`
  taking the assembled user prompt; `none` models a raised exception
  (connection failure, timeout, malformed response object), `some s`
  models a reply whose message content is `s`. A constant system message
  is also sent by the source and is omitted here because no behaviour
  depends on it.
-/

namespace RJ

/-- One row of `topics.csv` (columns read by the engine: `topic_id`,
`question_id`, `question`; the unused `topic` text column is omitted). -/
structure TopicsRow where
  topic_id : String
  question_id : String
  question : String
deriving DecidableEq, Repr

/-- One row of `groundtruth.csv` (columns read by the engine: `topic_id`,
`passage_id`, `passage`, `relevance_judgment`; the unused `topic` text
column is omitted). -/
structure GroundtruthRow where
  topic_id : String
  passage_id : String
  passage : String
  relevance_judgment : Int
deriving DecidableEq, Repr

/-- State of `GroundtruthBasedRetriever` after `__init__`: the two loaded
tables and the embedding model (a black-box text encoder). -/
structure Retriever where
  topics_df : List TopicsRow
  groundtruth_df : List GroundtruthRow
  encode : String → List Int

/-- Inner product of two vectors, the effect of `np.dot` on one matrix row
and the query vector. -/
def dot (a b : List Int) : Int :=
  (List.zipWith (fun x y => x * y) a b).sum

/-- The similarity array `np.dot(self.question_embeddings, query_embedding)`:
one inner product per stored question, in corpus order. -/
def similarities (r : Retriever) (query : String) : List Int :=
  r.topics_df.map (fun row => dot (r.encode row.question) (r.encode query))

/-- Ordering of indices used to model `np.argsort(similarities)`: index `i`
precedes index `j` when its value is smaller, or the values are equal and
`i` comes first in the array. This is a total order, so the sorted index
list is unique. -/
def argRel (sims : List Int) (i j : Nat) : Prop :=
  sims.getD i 0 < sims.getD j 0 ∨ (sims.getD i 0 = sims.getD j 0 ∧ i ≤ j)

instance (sims : List Int) : DecidableRel (argRel sims) := fun i j =>
  inferInstanceAs (Decidable (Or _ _))

/-- Model of `np.argsort(similarities)`: the indices `0, …, n-1` sorted in
ascending order of similarity (equal values keep original position). -/
def argsortAsc (sims : List Int) : List Nat :=
  List.insertionSort (argRel sims) (List.range sims.length)

/-- The index selected by `np.argsort(similarities)[::-1][:top_k]` with
`top_k = 1` followed by `results[0]`: head of the reversed ascending
argsort. -/
def topIndex (sims : List Int) : Nat :=
  ((argsortAsc sims).reverse).headD 0

/-- `GroundtruthBasedRetriever.find_matching_topic` with the operational
default `top_k = 1` (the only call shape the engine uses): encode the
query, compute all similarities, and return the entry of the best-scoring
index as `(topic_id, question_id, similarity)`. -/
def find_matching_topic (r : Retriever) (query : String) : String × String × Int :=
  let sims := similarities r query
  let idx := topIndex sims
  ((r.topics_df.getD idx ⟨"", "", ""⟩).topic_id,
   (r.topics_df.getD idx ⟨"", "", ""⟩).question_id,
   sims.getD idx 0)

/-- `GroundtruthBasedRetriever.search`: match the query to a topic, gather
the groundtruth rows of that topic, and return
`(passages, scores, passage_ids, question_type)`. -/
def search (r : Retriever) (query : String) (k : Nat) :
    List String × List ℚ × List String × String :=
  let topic_id := (find_matching_topic r query).1
  let topic_rows := r.groundtruth_df.filter (fun row => row.topic_id == topic_id)
  match topic_rows with
  | [] => ([], [], [], "Out-of-KB")
  | first :: rest =>
    let relevance := first.relevance_judgment
    let question_type :=
      if relevance = 2 then "Known"
      else if relevance = 1 then "Inferred"
      else "Unknown"
    let passages := ((first :: rest).map (fun row => row.passage)).take k
    let passage_ids := ((first :: rest).map (fun row => row.passage_id)).take k
    let scores := List.replicate passages.length (1 : ℚ)
    (passages, scores, passage_ids, question_type)

/-- State of `IntelligentRAGSystem` after `__init__`: the retriever, the
two LLM flags, and the Ollama backend (see the module docstring for the
`chat` convention). -/
structure RAGSystem where
  retriever : Retriever
  use_llm : Bool
  llm_available : Bool
  chat : String → Option String

/-- Python `str.strip()`: remove leading and trailing whitespace
(code-point level). -/
def strip (s : String) : String :=
  String.mk (((s.data.dropWhile Char.isWhitespace).reverse.dropWhile
    Char.isWhitespace).reverse)

/-- Python `sep.join(xs)`. -/
def joinSep (sep : String) : List String → String
  | [] => ""
  | [x] => x
  | x :: y :: rest => x ++ sep ++ joinSep sep (y :: rest)

/-- The refusal string of `_answer_out_of_kb` and of the except branch of
`_generate_with_llm` (one literal, written in the source with implicit
string concatenation). -/
def outOfKbRefusal : String :=
  "I cannot answer this question as it is outside the scope of the Romeo and Juliet knowledge base."

/-- `IntelligentRAGSystem._answer_known`: return the first passage, or a
fixed fallback when the passage list is empty. -/
def answer_known (passages : List String) : String :=
  if passages.isEmpty then "No answer found in knowledge base."
  else passages.headD ""

/-- `IntelligentRAGSystem._template_integrate`: join the first two passages
with a single space and truncate to the 500-character budget, appending an
ellipsis marker (`integrated_info[:497] + "..."`) when over budget. -/
def template_integrate (query : String) (passages : List String) : String :=
  let relevant_passages := passages.take 2
  let integrated_info := joinSep " " relevant_passages
  if integrated_info.length > 500 then
    String.mk (integrated_info.data.take 497) ++ "..."
  else integrated_info

/-- The context block of the inferred-mode prompt:
`"\n\n".join(f"Passage i+1: p" for i, p in enumerate(passages))`. -/
def inferredContext (passages : List String) : String :=
  joinSep "\n\n"
    (passages.enum.map (fun ip => "Passage " ++ Nat.repr (ip.1 + 1) ++ ": " ++ ip.2))

/-- The user prompt assembled by `_generate_with_llm` in inferred mode. -/
def inferredPrompt (query : String) (passages : List String) : String :=
  "You are an expert on Shakespeare\x27s Romeo and Juliet. Answer the following question by synthesizing information from the provided passages.\n\nQuestion: "
    ++ query
    ++ "\n\nContext from Romeo and Juliet:\n"
    ++ inferredContext passages
    ++ "\n\nPlease provide a comprehensive answer based on the passages above. Keep your response concise and focused."

/-- The user prompt assembled by `_generate_with_llm` in out-of-kb mode. -/
def outOfKbPrompt (query : String) : String :=
  "You are an expert on Shakespeare\x27s Romeo and Juliet. The following question is related to Romeo and Juliet but cannot be answered using the available knowledge base passages.\n\nQuestion: "
    ++ query
    ++ "\n\nPlease answer based on your general knowledge of the play. If this question requires speculation or cannot be definitively answered, explain why. Keep your response concise."

/-- `IntelligentRAGSystem._generate_with_llm`: build the prompt for the
mode, call the backend inside try/except, strip a successful reply, and on
an exception fall back to the template (inferred) or the refusal string
(otherwise). -/
def generate_with_llm (sys : RAGSystem) (query : String) (passages : List String)
    (mode : String) : String :=
  let prompt := if mode = "inferred" then inferredPrompt query passages
                else outOfKbPrompt query
  match sys.chat prompt with
  | some content => strip content
  | none =>
    if mode = "inferred" then template_integrate query passages
    else outOfKbRefusal

/-- `IntelligentRAGSystem._answer_inferred`. -/
def answer_inferred (sys : RAGSystem) (query : String) (passages : List String) : String :=
  if passages.isEmpty then "No relevant information found in knowledge base."
  else if sys.use_llm && sys.llm_available then
    generate_with_llm sys query passages "inferred"
  else template_integrate query passages

/-- `IntelligentRAGSystem._answer_out_of_kb`. -/
def answer_out_of_kb (sys : RAGSystem) (query : String) : String :=
  if sys.use_llm && sys.llm_available then
    generate_with_llm sys query [] "out-of-kb"
  else outOfKbRefusal

/-- `IntelligentRAGSystem.answer_question`: retrieve with `k = 4`, then
dispatch on the question type string; every type other than `"Known"` and
`"Inferred"` takes the final else branch. Returns
`(answer, question_type, passages)`. -/
def answer_question (sys : RAGSystem) (query : String) : String × String × List String :=
  let res := search sys.retriever query 4
  let passages := res.1
  let question_type := res.2.2.2
  let answer :=
    if question_type = "Known" then answer_known passages
    else if question_type = "Inferred" then answer_inferred sys query passages
    else answer_out_of_kb sys query
  (answer, question_type, passages)

/-- The `/api/ask` route handler `ask_text` of `app.py`: strip the posted
question, reject an empty result with an error payload before any
retrieval, otherwise answer and return
`(question, answer, question_type, passages[:2])`. -/
def ask_text (sys : RAGSystem) (question : String) :
    Except String (String × String × String × List String) :=
  let q := strip question
  if q = "" then Except.error "Question cannot be empty"
  else
    let res := answer_question sys q
    Except.ok (q, res.1, res.2.1, res.2.2.take 2)

/-! Concrete instances used to instantiate the theorems below. Every
instance uses a transparent encoder (the query length as a one-component
vector) so that all retrieval arithmetic is computable by the kernel. -/

/-- A system whose single topic has tier-2 (Known) groundtruth rows and no
generative backend. -/
def knownSystem : RAGSystem where
  retriever :=
    { topics_df := [⟨"W01", "Q001", "What metaphor does Romeo use"⟩],
      groundtruth_df := [⟨"W01", "P001", "Juliet is the sun.", 2⟩,
                         ⟨"W01", "P002", "He calls her the sun.", 2⟩],
      encode := fun s => [(s.length : Int)] }
  use_llm := false
  llm_available := false
  chat := fun _ => none

/-- A system whose single topic has a first groundtruth row with relevance
tier 0 (neither 2 nor 1), so that `search` classifies it Unknown. -/
def unknownTierSystem : RAGSystem where
  retriever :=
    { topics_df := [⟨"W02", "Q002", "some question"⟩],
      groundtruth_df := [⟨"W02", "P001", "a stored passage", 0⟩],
      encode := fun s => [(s.length : Int)] }
  use_llm := false
  llm_available := false
  chat := fun _ => none

/-- A system whose single topic has three tier-1 (Inferred) groundtruth
rows. -/
def inferredSystem : RAGSystem where
  retriever :=
    { topics_df := [⟨"W03", "Q003", "how does it evolve"⟩],
      groundtruth_df := [⟨"W03", "P001", "first passage", 1⟩,
                         ⟨"W03", "P002", "second passage", 1⟩,
                         ⟨"W03", "P003", "third passage", 1⟩],
      encode := fun s => [(s.length : Int)] }
  use_llm := false
  llm_available := false
  chat := fun _ => none

/-- A system whose single topic has no groundtruth rows at all. -/
def absentSystem : RAGSystem where
  retriever :=
    { topics_df := [⟨"W04", "Q004", "smartphone question"⟩],
      groundtruth_df := [⟨"W01", "P001", "unrelated passage", 2⟩],
      encode := fun s => [(s.length : Int)] }
  use_llm := false
  llm_available := false
  chat := fun _ => none

/-- A system with the generative backend enabled whose backend replies
with an empty message content. -/
def emptyReplySystem : RAGSystem where
  retriever :=
    { topics_df := [⟨"W03", "Q003", "how does it evolve"⟩],
      groundtruth_df := [⟨"W03", "P001", "hello there", 1⟩],
      encode := fun s => [(s.length : Int)] }
  use_llm := true
  llm_available := true
  chat := fun _ => some ""

/-- A system with the generative backend enabled whose backend raises on
every call. -/
def failingBackendSystem : RAGSystem where
  retriever :=
    { topics_df := [⟨"W03", "Q003", "how does it evolve"⟩],
      groundtruth_df := [⟨"W03", "P001", "hello there", 1⟩],
      encode := fun s => [(s.length : Int)] }
  use_llm := true
  llm_available := true
  chat := fun _ => none

/-- A retriever whose constant encoder gives every stored question the
same similarity to every query, producing a maximal tie between the two
corpus entries. -/
def tieRetriever : Retriever where
  topics_df := [⟨"T0", "Q0", "first question"⟩, ⟨"T1", "Q1", "second question"⟩]
  groundtruth_df := []
  encode := fun _ => [1]

end RJ

namespace RJ

/-- Characterisation of `search` when the matched topic has no groundtruth
rows: the empty Out-of-KB result, for every `k`. -/
theorem search_eq_of_filter_nil (r : Retriever) (q : String) (k : Nat)
    (hrows : r.groundtruth_df.filter
      (fun row => row.topic_id == (find_matching_topic r q).1) = []) :
    search r q k = ([], [], [], "Out-of-KB") := by
  simp only [search]
  rw [hrows]

/-- Characterisation of `search` when the matched topic has groundtruth
rows `first :: rest`. -/
theorem search_eq_of_filter_cons (r : Retriever) (q : String) (k : Nat)
    (first : GroundtruthRow) (rest : List GroundtruthRow)
    (hrows : r.groundtruth_df.filter
      (fun row => row.topic_id == (find_matching_topic r q).1) = first :: rest) :
    search r q k =
      (((first :: rest).map (fun row => row.passage)).take k,
       List.replicate (((first :: rest).map (fun row => row.passage)).take k).length (1 : ℚ),
       ((first :: rest).map (fun row => row.passage_id)).take k,
       if first.relevance_judgment = 2 then "Known"
       else if first.relevance_judgment = 1 then "Inferred"
       else "Unknown") := by
  simp only [search]
  rw [hrows]

/-- Claim C8: for every empty or blank (whitespace-only) query string, the
`/api/ask` entry point rejects it before any matching takes place, with an
explicit caller-visible error, rather than encoding it and returning a
best match. -/
theorem blank_query_rejected (sys : RAGSystem) (question : String)
    (h : strip question = "") :
    ask_text sys question = Except.error "Question cannot be empty" := by
  simp [ask_text, h]

/-- Witness for `blank_query_rejected` on a whitespace-only query. -/
theorem blank_query_rejected_witness :
    ask_text knownSystem "   " = Except.error "Question cannot be empty" :=
  blank_query_rejected knownSystem "   " (by decide)

/-- Claim C3: for every query whose matched topic has no groundtruth rows,
`search` classifies Out-of-KB with empty passage, score and passage-id
lists — for every `k`, and independently of the similarity score (no
assumption is made on the encoder) — and with no generative backend
configured the answer is the fixed refusal string. -/
theorem absent_topic_out_of_kb (sys : RAGSystem) (q : String)
    (hrows : sys.retriever.groundtruth_df.filter
      (fun row => row.topic_id == (find_matching_topic sys.retriever q).1) = [])
    (hllm : sys.use_llm = false) :
    (∀ k, search sys.retriever q k = ([], [], [], "Out-of-KB")) ∧
    answer_question sys q = (outOfKbRefusal, "Out-of-KB", []) := by
  have hs : ∀ k, search sys.retriever q k = ([], [], [], "Out-of-KB") :=
    fun k => search_eq_of_filter_nil sys.retriever q k hrows
  refine ⟨hs, ?_⟩
  simp only [answer_question, hs 4]
  rw [if_neg (by decide : ¬("Out-of-KB" : String) = "Known"),
    if_neg (by decide : ¬("Out-of-KB" : String) = "Inferred")]
  simp [answer_out_of_kb, hllm]

/-- Witness for `absent_topic_out_of_kb` on a topic absent from the
groundtruth table. -/
theorem absent_topic_out_of_kb_witness :
    (∀ k, search absentSystem.retriever "smartphone question" k = ([], [], [], "Out-of-KB")) ∧
    answer_question absentSystem "smartphone question" = (outOfKbRefusal, "Out-of-KB", []) :=
  absent_topic_out_of_kb absentSystem "smartphone question" (by decide) (by decide)

/-- Claim C2: for every query whose best match resolves to a topic present
in the groundtruth table with first-row relevance tier 2, `answer_question`
returns classification Known and an answer exactly equal to the first
stored passage text of that topic. -/
theorem known_returns_first_passage (sys : RAGSystem) (q : String)
    (first : GroundtruthRow) (rest : List GroundtruthRow)
    (hrows : sys.retriever.groundtruth_df.filter
      (fun row => row.topic_id == (find_matching_topic sys.retriever q).1) = first :: rest)
    (hrel : first.relevance_judgment = 2) :
    answer_question sys q =
      (first.passage, "Known", ((first :: rest).map (fun row => row.passage)).take 4) := by
  have hs := search_eq_of_filter_cons sys.retriever q 4 first rest hrows
  rw [hrel, if_pos rfl] at hs
  simp only [answer_question, hs, if_pos rfl]
  simp [answer_known]

/-- Witness for `known_returns_first_passage` on a two-passage tier-2
topic. -/
theorem known_returns_first_passage_witness :
    answer_question knownSystem "What metaphor does Romeo use" =
      ("Juliet is the sun.", "Known", ["Juliet is the sun.", "He calls her the sun."]) :=
  (known_returns_first_passage knownSystem "What metaphor does Romeo use"
    ⟨"W01", "P001", "Juliet is the sun.", 2⟩
    [⟨"W01", "P002", "He calls her the sun.", 2⟩]
    (by decide) rfl).trans (by decide)

/-- Claim C9: for every query whose matched topic has groundtruth rows,
`search` returns the passages of that topic in stored order truncated to
`k`, the passage ids likewise truncated and of the same length as the
passage list, and a score list that is exactly `passages.length` copies of
the constant confidence `1.0`. -/
theorem search_passages_aligned (r : Retriever) (q : String) (k : Nat)
    (first : GroundtruthRow) (rest : List GroundtruthRow)
    (hrows : r.groundtruth_df.filter
      (fun row => row.topic_id == (find_matching_topic r q).1) = first :: rest) :
    (search r q k).1 = ((first :: rest).map (fun row => row.passage)).take k ∧
    (search r q k).2.2.1 = ((first :: rest).map (fun row => row.passage_id)).take k ∧
    ((search r q k).2.2.1).length = ((search r q k).1).length ∧
    (search r q k).2.1 = List.replicate ((search r q k).1).length (1 : ℚ) := by
  have hs := search_eq_of_filter_cons r q k first rest hrows
  refine ⟨by rw [hs], by rw [hs], ?_, by rw [hs]⟩
  rw [hs]
  simp [List.length_take]

/-- Witness for `search_passages_aligned` on a three-passage topic with
`k = 2`. -/
theorem search_passages_aligned_witness :
    (search inferredSystem.retriever "how does it evolve" 2).1 = ["first passage", "second passage"] ∧
    (search inferredSystem.retriever "how does it evolve" 2).2.2.1 = ["P001", "P002"] ∧
    ((search inferredSystem.retriever "how does it evolve" 2).2.2.1).length =
      ((search inferredSystem.retriever "how does it evolve" 2).1).length ∧
    (search inferredSystem.retriever "how does it evolve" 2).2.1 =
      List.replicate ((search inferredSystem.retriever "how does it evolve" 2).1).length (1 : ℚ) := by
  have h := search_passages_aligned inferredSystem.retriever "how does it evolve" 2
    ⟨"W03", "P001", "first passage", 1⟩
    [⟨"W03", "P002", "second passage", 1⟩, ⟨"W03", "P003", "third passage", 1⟩]
    (by decide)
  exact ⟨h.1.trans (by decide), h.2.1.trans (by decide), h.2.2.1, h.2.2.2⟩

/-- Claim C10: whenever `search` (with a positive passage limit, as in the
fixed `k = 4` of `answer_question`) classifies a query as Known, the
returned passage list is non-empty, so `answer_known` takes the head
branch and its empty-passage fallback string is unreachable. -/
theorem known_passages_nonempty (r : Retriever) (q : String) (k : Nat)
    (hk : 0 < k) (hknown : (search r q k).2.2.2 = "Known") :
    ∃ p ps, (search r q k).1 = p :: ps ∧ answer_known ((search r q k).1) = p := by
  rcases hfil : r.groundtruth_df.filter
      (fun row => row.topic_id == (find_matching_topic r q).1) with _ | ⟨first, rest⟩
  · rw [search_eq_of_filter_nil r q k hfil] at hknown
    exact absurd hknown (by decide)
  · have hs := search_eq_of_filter_cons r q k first rest hfil
    rcases Nat.exists_eq_add_of_lt hk with ⟨k1, hk1⟩
    refine ⟨first.passage, ((rest.map (fun row => row.passage)).take k1), ?_, ?_⟩
    · rw [hs]
      simp [hk1, Nat.add_comm]
    · rw [hs]
      simp [hk1, Nat.add_comm, answer_known]

/-- Witness for `known_passages_nonempty` at `k = 4` on the Known sample
system. -/
theorem known_passages_nonempty_witness :
    ∃ p ps, (search knownSystem.retriever "What metaphor does Romeo use" 4).1 = p :: ps ∧
      answer_known ((search knownSystem.retriever "What metaphor does Romeo use" 4).1) = p :=
  known_passages_nonempty knownSystem.retriever "What metaphor does Romeo use" 4
    (by decide) (by decide)

/-- Counterexample to claim C1: in `unknownTierSystem` the matched topic
has a passage and its first row has relevance tier 0 (neither 2 nor 1), so
the resolver classifies it Unknown — but the dispatcher answers with the
fixed Out-of-KB refusal string, not with the template combination of the
topic passages that an Inferred-like treatment would produce. -/
theorem unknown_not_treated_as_inferred :
    answer_question unknownTierSystem "some question" =
      (outOfKbRefusal, "Unknown", ["a stored passage"]) ∧
    template_integrate "some question" ["a stored passage"] = "a stored passage" ∧
    outOfKbRefusal ≠ "a stored passage" := by
  decide

/-- Claim C1 as amended: for every query classified Unknown by the
resolver, the dispatcher takes the final else branch and answers exactly
as it does for Out-of-KB queries (refusal string or general-knowledge
generation), even though the passages of the topic are returned. -/
theorem unknown_routed_to_out_of_kb (sys : RAGSystem) (q : String)
    (h : (search sys.retriever q 4).2.2.2 = "Unknown") :
    (answer_question sys q).1 = answer_out_of_kb sys q ∧
    (answer_question sys q).2.1 = "Unknown" := by
  simp only [answer_question, h]
  rw [if_neg (by decide : ¬("Unknown" : String) = "Known"),
    if_neg (by decide : ¬("Unknown" : String) = "Inferred")]
  exact ⟨rfl, trivial⟩

/-- Witness for `unknown_routed_to_out_of_kb` on the tier-0 sample
system. -/
theorem unknown_routed_to_out_of_kb_witness :
    (answer_question unknownTierSystem "some question").1 =
      answer_out_of_kb unknownTierSystem "some question" ∧
    (answer_question unknownTierSystem "some question").2.1 = "Unknown" :=
  unknown_routed_to_out_of_kb unknownTierSystem "some question" (by decide)

/-- Claim C4: template synthesis joins the top-2 passages with a single
separator; when that concatenation exceeds the 500-character budget the
result has length exactly 500 and ends in the literal ellipsis marker,
and a concatenation of at most 500 characters is returned unchanged. -/
theorem template_integrate_spec (query : String) (passages : List String) :
    (500 < (joinSep " " (passages.take 2)).length →
      (template_integrate query passages).length = 500 ∧
      ∃ t, template_integrate query passages = t ++ "...") ∧
    ((joinSep " " (passages.take 2)).length ≤ 500 →
      template_integrate query passages = joinSep " " (passages.take 2)) := by
  constructor
  · intro h
    have hout : template_integrate query passages =
        String.mk ((joinSep " " (passages.take 2)).data.take 497) ++ "..." := by
      simp only [template_integrate]
      rw [if_pos h]
    refine ⟨?_, ⟨_, hout⟩⟩
    rw [hout, String.length_append]
    have hmk : (String.mk ((joinSep " " (passages.take 2)).data.take 497)).length =
        ((joinSep " " (passages.take 2)).data.take 497).length := rfl
    have hdata : (joinSep " " (passages.take 2)).data.length =
        (joinSep " " (passages.take 2)).length := rfl
    have hdots : ("..." : String).length = 3 := rfl
    rw [hmk, hdots, List.length_take]
    omega
  · intro h
    simp only [template_integrate]
    rw [if_neg (by omega)]

set_option maxRecDepth 10000 in
/-- Witness for `template_integrate_spec` on passages of length 300 and
400 (joined length 701): the synthesized text has length 500 and carries
the ellipsis marker. -/
theorem template_integrate_spec_witness :
    (template_integrate "q"
      [String.mk (List.replicate 300 'a'), String.mk (List.replicate 400 'b')]).length = 500 ∧
    ∃ t, template_integrate "q"
      [String.mk (List.replicate 300 'a'), String.mk (List.replicate 400 'b')] = t ++ "..." :=
  (template_integrate_spec "q"
    [String.mk (List.replicate 300 'a'), String.mk (List.replicate 400 'b')]).1 (by decide)

/-- Every member of a joined list occurs verbatim inside the join. -/
theorem joinSep_infix (sep : String) : ∀ (l : List String) (x : String), x ∈ l →
    ∃ a b, joinSep sep l = a ++ (x ++ b)
  | [], x, hx => absurd hx (List.not_mem_nil x)
  | [y], x, hx => by
    rcases List.mem_singleton.mp hx with rfl
    exact ⟨"", "", by simp [joinSep]⟩
  | y :: z :: rest, x, hx => by
    rcases List.mem_cons.mp hx with rfl | hx2
    · exact ⟨"", sep ++ joinSep sep (z :: rest), by
        simp [joinSep, String.append_assoc]⟩
    · rcases joinSep_infix sep (z :: rest) x hx2 with ⟨a, b, hab⟩
      exact ⟨y ++ sep ++ a, b, by
        simp [joinSep, hab, String.append_assoc]⟩

/-- A list member appears in the enumeration at some index. -/
theorem exists_mem_enum {α : Type} (l : List α) (x : α) (hx : x ∈ l) :
    ∃ i, (i, x) ∈ l.enum := by
  obtain ⟨i, hi, rfl⟩ := List.mem_iff_getElem.mp hx
  exact ⟨i, by simp [List.mk_mem_enum_iff_getElem?, List.getElem?_eq_getElem, hi]⟩

set_option maxRecDepth 10000 in
/-- Counterexample to claim C5: with three retrieved passages the prompt
assembled for the generative backend in the Inferred state is not the
prompt built from only the first 2 passages — the backend request does not
contain at most 2 passages. -/
theorem inferred_prompt_not_two_passages :
    inferredPrompt "q" ["A", "B", "C"] ≠ inferredPrompt "q" (["A", "B", "C"].take 2) := by
  decide

/-- Claim C5 as amended: in the Inferred state the deterministic template
combines only the first 2 passages, while the prompt assembled for the
generative backend contains every retrieved passage verbatim (up to the
retrieval limit, 4 through `answer_question`), not at most 2. -/
theorem inferred_passage_usage (query : String) (passages : List String) :
    template_integrate query passages = template_integrate query (passages.take 2) ∧
    ∀ p ∈ passages, ∃ a b, inferredPrompt query passages = a ++ (p ++ b) := by
  constructor
  · simp only [template_integrate, List.take_take]
    norm_num
  · intro p hp
    obtain ⟨i, hi⟩ := exists_mem_enum passages p hp
    have hmem : ("Passage " ++ Nat.repr (i + 1) ++ ": " ++ p) ∈
        passages.enum.map (fun ip => "Passage " ++ Nat.repr (ip.1 + 1) ++ ": " ++ ip.2) :=
      List.mem_map_of_mem _ hi
    obtain ⟨a, b, hab⟩ := joinSep_infix "\n\n" _ _ hmem
    refine ⟨"You are an expert on Shakespeare\x27s Romeo and Juliet. Answer the following question by synthesizing information from the provided passages.\n\nQuestion: "
        ++ query ++ "\n\nContext from Romeo and Juliet:\n"
        ++ (a ++ ("Passage " ++ Nat.repr (i + 1) ++ ": ")),
      b ++ "\n\nPlease provide a comprehensive answer based on the passages above. Keep your response concise and focused.", ?_⟩
    simp only [inferredPrompt, inferredContext, hab]
    simp [String.append_assoc]

/-- Witness for `inferred_passage_usage`: with three passages the template
depends only on the first two, and the third passage still occurs verbatim
in the generative prompt. -/
theorem inferred_passage_usage_witness :
    template_integrate "q" ["A", "B", "C"] = template_integrate "q" (["A", "B", "C"].take 2) ∧
    ∃ a b, inferredPrompt "q" ["A", "B", "C"] = a ++ ("C" ++ b) :=
  ⟨(inferred_passage_usage "q" ["A", "B", "C"]).1,
   (inferred_passage_usage "q" ["A", "B", "C"]).2 "C" (by decide)⟩

set_option maxRecDepth 10000 in
/-- Counterexample to claim C7: when the generative backend succeeds with
an empty message content, `_generate_with_llm` returns the stripped empty
string as the answer instead of downgrading to the deterministic template
(which here would be the non-empty passage text). -/
theorem empty_reply_not_downgraded :
    generate_with_llm emptyReplySystem "q" ["hello there"] "inferred" = "" ∧
    template_integrate "q" ["hello there"] = "hello there" ∧
    ("" : String) ≠ "hello there" := by
  decide

/-- Claim C7 as amended: a backend exception (timeout, connection error,
malformed response object) is caught at the dispatcher boundary and
downgraded to the deterministic template (Inferred) or the fixed refusal
string (Out-of-KB), so no failure propagates to the caller; a response the
backend does return — even an empty one — is stripped and returned as the
answer rather than downgraded. -/
theorem generate_fallback_spec (sys : RAGSystem) (q : String) (passages : List String) :
    (sys.chat (inferredPrompt q passages) = none →
      generate_with_llm sys q passages "inferred" = template_integrate q passages) ∧
    (sys.chat (outOfKbPrompt q) = none →
      generate_with_llm sys q passages "out-of-kb" = outOfKbRefusal) ∧
    (∀ s, sys.chat (inferredPrompt q passages) = some s →
      generate_with_llm sys q passages "inferred" = strip s) := by
  refine ⟨?_, ?_, ?_⟩
  · intro h
    simp [generate_with_llm, h]
  · intro h
    have hmode : ¬("out-of-kb" : String) = "inferred" := by decide
    simp [generate_with_llm, hmode, h]
  · intro s h
    simp [generate_with_llm, h]

/-- Witness for `generate_fallback_spec` on a backend that raises on every
call: the Inferred answer downgrades to the template. -/
theorem generate_fallback_spec_witness :
    generate_with_llm failingBackendSystem "q" ["hello there"] "inferred" =
      template_integrate "q" ["hello there"] :=
  (generate_fallback_spec failingBackendSystem "q" ["hello there"]).1 rfl

/-- The argsort index ordering is total. -/
theorem argRel_total (sims : List Int) : ∀ i j, argRel sims i j ∨ argRel sims j i := by
  intro i j
  rcases lt_trichotomy (sims.getD i 0) (sims.getD j 0) with h | h | h
  · exact Or.inl (Or.inl h)
  · rcases Nat.le_total i j with hij | hij
    · exact Or.inl (Or.inr ⟨h, hij⟩)
    · exact Or.inr (Or.inr ⟨h.symm, hij⟩)
  · exact Or.inr (Or.inl h)

/-- The argsort index ordering is transitive. -/
theorem argRel_trans (sims : List Int) :
    ∀ i j k, argRel sims i j → argRel sims j k → argRel sims i k := by
  intro i j k hij hjk
  rcases hij with h | ⟨he, hle⟩
  · rcases hjk with h2 | ⟨he2, _⟩
    · exact Or.inl (h.trans h2)
    · exact Or.inl (he2 ▸ h)
  · rcases hjk with h2 | ⟨he2, hle2⟩
    · exact Or.inl (he ▸ h2)
    · exact Or.inr ⟨he.trans he2, hle.trans hle2⟩

/-- The argsort index ordering is reflexive. -/
theorem argRel_refl (sims : List Int) (i : Nat) : argRel sims i i :=
  Or.inr ⟨rfl, Nat.le_refl i⟩

/-- On a non-empty similarity array the selected index is in range and
every index relates to it under the argsort ordering: it attains the
maximal similarity, and among equal maxima it is the last one. -/
theorem topIndex_spec (sims : List Int) (h : sims ≠ []) :
    topIndex sims < sims.length ∧ ∀ j < sims.length, argRel sims j (topIndex sims) := by
  haveI : IsTotal Nat (argRel sims) := ⟨argRel_total sims⟩
  haveI : IsTrans Nat (argRel sims) := ⟨argRel_trans sims⟩
  have hsorted : List.Sorted (argRel sims) (argsortAsc sims) :=
    List.sorted_insertionSort (argRel sims) _
  have hperm : (argsortAsc sims).Perm (List.range sims.length) :=
    List.perm_insertionSort (argRel sims) _
  have hrevp : (argsortAsc sims).reverse.Pairwise (flip (argRel sims)) := by
    rw [List.pairwise_reverse]
    exact hsorted
  have hmemrev : ∀ j, j < sims.length → j ∈ (argsortAsc sims).reverse := by
    intro j hj
    rw [List.mem_reverse]
    exact hperm.mem_iff.mpr (List.mem_range.mpr hj)
  rcases hrev : (argsortAsc sims).reverse with _ | ⟨y, rest⟩
  · exfalso
    have h0 : sims.length ≠ 0 := fun h0 => h (List.eq_nil_of_length_eq_zero h0)
    have hm := hmemrev 0 (Nat.pos_of_ne_zero h0)
    rw [hrev] at hm
    exact absurd hm (List.not_mem_nil 0)
  · have hidx : topIndex sims = y := by
      simp [topIndex, hrev]
    have hy : y ∈ (argsortAsc sims).reverse := by
      rw [hrev]
      exact List.mem_cons_self y rest
    have hylt : y < sims.length := by
      rw [List.mem_reverse] at hy
      exact List.mem_range.mp (hperm.mem_iff.mp hy)
    rw [hidx]
    refine ⟨hylt, ?_⟩
    intro j hj
    have hjmem := hmemrev j hj
    rw [hrev] at hjmem
    rcases List.mem_cons.mp hjmem with rfl | hjrest
    · exact argRel_refl sims j
    · rw [hrev] at hrevp
      exact (List.pairwise_cons.mp hrevp).1 j hjrest

/-- Counterexample to claim C6: with a constant encoder both corpus
entries attain the maximal similarity, and the matcher returns the second
(last-encountered) entry, not the first-encountered maximal one. -/
theorem tie_not_first_encountered :
    similarities tieRetriever "any query" = [1, 1] ∧
    find_matching_topic tieRetriever "any query" = ("T1", "Q1", 1) ∧
    ("T1" : String) ≠ "T0" := by
  decide

/-- Claim C6 as amended: `find_matching_topic` is deterministic for a
fixed corpus and embedding function (it is a pure function of them), the
selected index attains the maximal similarity, and when two or more stored
questions attain that maximum the returned entry is the one of the
last-encountered (highest-index) maximal entry in corpus order. -/
theorem find_matching_topic_last_max (r : Retriever) (q : String)
    (h : r.topics_df ≠ []) :
    topIndex (similarities r q) < r.topics_df.length ∧
    (∀ j < r.topics_df.length,
      (similarities r q).getD j 0 < (similarities r q).getD (topIndex (similarities r q)) 0 ∨
      ((similarities r q).getD j 0 = (similarities r q).getD (topIndex (similarities r q)) 0 ∧
        j ≤ topIndex (similarities r q))) ∧
    find_matching_topic r q =
      ((r.topics_df.getD (topIndex (similarities r q)) ⟨"", "", ""⟩).topic_id,
       (r.topics_df.getD (topIndex (similarities r q)) ⟨"", "", ""⟩).question_id,
       (similarities r q).getD (topIndex (similarities r q)) 0) := by
  have hlen : (similarities r q).length = r.topics_df.length := List.length_map _ _
  have hne : similarities r q ≠ [] := by
    intro h0
    exact h (List.map_eq_nil_iff.mp h0)
  obtain ⟨h1, h2⟩ := topIndex_spec (similarities r q) hne
  refine ⟨hlen ▸ h1, ?_, rfl⟩
  intro j hj
  exact h2 j (by rw [hlen]; exact hj)

/-- Witness for `find_matching_topic_last_max` on the two-entry tied
corpus. -/
theorem find_matching_topic_last_max_witness :
    topIndex (similarities tieRetriever "any query") < tieRetriever.topics_df.length ∧
    (∀ j < tieRetriever.topics_df.length,
      (similarities tieRetriever "any query").getD j 0 <
        (similarities tieRetriever "any query").getD
          (topIndex (similarities tieRetriever "any query")) 0 ∨
      ((similarities tieRetriever "any query").getD j 0 =
        (similarities tieRetriever "any query").getD
          (topIndex (similarities tieRetriever "any query")) 0 ∧
        j ≤ topIndex (similarities tieRetriever "any query"))) ∧
    find_matching_topic tieRetriever "any query" =
      ((tieRetriever.topics_df.getD
          (topIndex (similarities tieRetriever "any query")) ⟨"", "", ""⟩).topic_id,
       (tieRetriever.topics_df.getD
          (topIndex (similarities tieRetriever "any query")) ⟨"", "", ""⟩).question_id,
       (similarities tieRetriever "any query").getD
          (topIndex (similarities tieRetriever "any query")) 0) :=
  find_matching_topic_last_max tieRetriever "any query" (by decide)

end RJ
